import Mathlib

/-!
Verification of the DGA (dissolved gas analysis) diagnostic rule engine of
`streamlit_dga_app.py`.

Gas concentrations and the derived percentages/ratios are modelled as exact
rationals (`ℚ`); the Python floats implement real arithmetic, and every
concrete evaluation in this file is far from any rounding boundary, so the
rational model agrees with the float computation at every input used here.
`to_cartesian` needs `sqrt 3` and is modelled over `ℝ`.
Python's unguarded division (which raises `ZeroDivisionError` on a zero
denominator) is modelled as an `Option`-valued checked division; guarded
divisions (`a / b if b > 0 else ...`) stay total because the guard makes the
zero-denominator case unreachable.
-/

/-- Embeds `to_cartesian(p1, p2, p3)`: converts normalized ternary
coordinates to Cartesian `(x, y)` via `x = p2 + p3/2`, `y = p3*sqrt(3)/2`. -/
noncomputable def to_cartesian (p1 p2 p3 : ℝ) : ℝ × ℝ :=
  (p2 + p3 / 2, p3 * Real.sqrt 3 / 2)

/-- Embeds `get_duval_percentages(G1, G2, G3)`: normalizes three gases to
100%, returning `(P1, P2, P3, total)`, or `(0, 0, 0, 0)` when the total is
zero. -/
def get_duval_percentages (G1 G2 G3 : ℚ) : ℚ × ℚ × ℚ × ℚ :=
  let total := G1 + G2 + G3
  if total = 0 then (0, 0, 0, 0)
  else ((G1 / total) * 100, (G2 / total) * 100, (G3 / total) * 100, total)

/-- Round a rational to the nearest integer, ties to even: the rounding of
Python's fixed-point float formatting. -/
def roundHalfEven (q : ℚ) : ℤ :=
  let f := ⌊q⌋
  let r := q - f
  if r < 1 / 2 then f
  else if 1 / 2 < r then f + 1
  else if f % 2 = 0 then f else f + 1

/-- Render a scaled integer `n` (the value times `10 ^ prec`) as a decimal
numeral with `prec` digits after the point. -/
def renderFixed (prec : ℕ) (n : ℤ) : String :=
  let m := n.natAbs
  let ip := m / 10 ^ prec
  let fp := m % 10 ^ prec
  let fpStr := toString fp
  let pad := String.mk (List.replicate (prec - fpStr.length) '0')
  (if n < 0 then "-" else "") ++ toString ip ++ "." ++ pad ++ fpStr

/-- Embeds Python's fixed-point formatting `f"{q:.prec f}"` for the exact
value `q`: `prec` digits after the decimal point, rounded to nearest. -/
def formatFixed (prec : ℕ) (q : ℚ) : String :=
  renderFixed prec (roundHalfEven (q * (10 : ℚ) ^ prec))

/-- The `diagnosis` label chosen by the ordered if/elif chain of
`diagnose_duval_t1` (after the zero-total early return). -/
def duval_t1_label (P_CH4 P_C2H4 P_C2H2 : ℚ) : String :=
  if P_C2H2 < 0.5 ∧ P_CH4 > 80 then "T1 (Thermal fault T < 300°C)"
  else if P_C2H4 > 25 ∧ P_C2H2 < 1 then "T2 (Thermal fault 300°C–700°C)"
  else if P_C2H2 > 5 ∧ P_C2H4 > 15 then "D2 (Arcing in oil)"
  else if P_C2H4 > 50 ∧ P_C2H2 < 2 then "T3 (Thermal fault T > 700°C)"
  else "Undefined/Mixed Fault"

/-- Embeds `diagnose_duval_t1(H2, CH4, C2H4, C2H2, CO)`: Duval Triangle 1
on CH4, C2H4, C2H2. -/
def diagnose_duval_t1 (H2 CH4 C2H4 C2H2 CO : ℚ) : String :=
  let P := get_duval_percentages CH4 C2H4 C2H2
  if P.2.2.2 = 0 then "Not Applicable (Total gas is zero)"
  else
    duval_t1_label P.1 P.2.1 P.2.2.1 ++
      " (CH4: " ++ formatFixed 1 P.1 ++ "%, C2H4: " ++ formatFixed 1 P.2.1 ++
      "%, C2H2: " ++ formatFixed 1 P.2.2.1 ++ "%)"

/-- The `diagnosis` label chosen by the ordered if/elif chain of
`diagnose_duval_t4`. -/
def duval_t4_label (P_H2 P_C2H2 P_C2H4 : ℚ) : String :=
  if P_H2 > 80 ∧ P_C2H2 < 5 then "S (Stray Gassing / Hot metal contacts)"
  else if P_C2H4 > 60 ∧ P_H2 < 10 then "T3 (Severe Thermal Fault T > 700°C)"
  else if P_C2H2 > 15 then "D2 (High Energy Arcing)"
  else "Mixed or Undefined Region"

/-- Embeds `diagnose_duval_t4(H2, CH4, C2H4, C2H2, CO)`: Duval Triangle 4
on H2, C2H2, C2H4. -/
def diagnose_duval_t4 (H2 CH4 C2H4 C2H2 CO : ℚ) : String :=
  let P := get_duval_percentages H2 C2H2 C2H4
  if P.2.2.2 = 0 then "Not Applicable (Total gas is zero)"
  else
    duval_t4_label P.1 P.2.1 P.2.2.1 ++
      " (H2: " ++ formatFixed 1 P.1 ++ "%, C2H2: " ++ formatFixed 1 P.2.1 ++
      "%, C2H4: " ++ formatFixed 1 P.2.2.1 ++ "%)"

/-- Embeds the ratio computation of `diagnose_rogers_ratio`: `R1 = CH4/H2`,
`R2 = C2H4/CH4`, `R5 = C2H2/C2H4`, each replaced by the sentinel 99 when its
denominator is not positive. -/
def rogers_ratios (H2 CH4 C2H4 C2H2 : ℚ) : ℚ × ℚ × ℚ :=
  (if H2 > 0 then CH4 / H2 else 99,
   if CH4 > 0 then C2H4 / CH4 else 99,
   if C2H4 > 0 then C2H2 / C2H4 else 99)

/-- Bucketing of Rogers ratio R1: `'0' if r < 0.1 else ('2' if r > 1.0 else '1')`. -/
def rogers_bucket1 (r : ℚ) : String :=
  if r < 0.1 then "0" else if r > 1.0 then "2" else "1"

/-- Bucketing of Rogers ratio R2: `'0' if r < 1.0 else ('2' if r > 3.0 else '1')`. -/
def rogers_bucket2 (r : ℚ) : String :=
  if r < 1.0 then "0" else if r > 3.0 then "2" else "1"

/-- Bucketing of Rogers ratio R5: `'0' if r < 0.5 else ('2' if r > 3.0 else '1')`. -/
def rogers_bucket5 (r : ℚ) : String :=
  if r < 0.5 then "0" else if r > 3.0 then "2" else "1"

/-- The 3-character Rogers code: bucket of R1, then R2, then R5. -/
def rogers_code (r1 r2 r5 : ℚ) : String :=
  rogers_bucket1 r1 ++ rogers_bucket2 r2 ++ rogers_bucket5 r5

/-- The `diagnoses` lookup table of `diagnose_rogers_ratio`. -/
def rogers_diagnoses : List (String × String) :=
  [("100", "T1 (Thermal Fault T < 300°C)"),
   ("110", "T2 (Thermal Fault 300°C–700°C)"),
   ("210", "T3 (Thermal Fault T > 700°C)"),
   ("102", "D1 (Low Energy Discharge/PD)"),
   ("001", "D2 (High Energy Discharge/Arcing)"),
   ("000", "No fault / Normal aging"),
   ("010", "Undefined/Mixed thermal"),
   ("011", "Undefined/Mixed thermal"),
   ("111", "Mixed thermal and electrical")]

/-- Embeds `diagnoses.get(code, "Undefined/Developing Fault")`. -/
def rogers_lookup (code : String) : String :=
  (List.lookup code rogers_diagnoses).getD "Undefined/Developing Fault"

/-- Embeds `diagnose_rogers_ratio(H2, CH4, C2H4, C2H2, CO)`. -/
def diagnose_rogers_ratio (H2 CH4 C2H4 C2H2 CO : ℚ) : String :=
  let r := rogers_ratios H2 CH4 C2H4 C2H2
  let code := rogers_code r.1 r.2.1 r.2.2
  let diag := rogers_lookup code
  "Code: " ++ code ++ "XX, Diagnosis: " ++ diag ++
    " (R1:" ++ formatFixed 2 r.1 ++ ", R2:" ++ formatFixed 2 r.2.1 ++
    ", R5:" ++ formatFixed 2 r.2.2 ++ ")"

/-- Checked division: Python's `/` raises on a zero denominator, modelled as
`none`. -/
def divChecked (a b : ℚ) : Option ℚ :=
  if b = 0 then none else some (a / b)

/-- Embeds `diagnose_doernenburg(H2, CH4, C2H4, C2H2, CO)`: the four-minimum
applicability gate, then four unguarded ratio divisions, then two ordered
boundary checks. -/
def diagnose_doernenburg (H2 CH4 C2H4 C2H2 CO : ℚ) : Option String :=
  if H2 < 100 ∨ CH4 < 10 ∨ C2H2 < 0.5 ∨ C2H4 < 50 then
    some "Inconclusive (Gas limits below Doernenburg thresholds)"
  else
    (divChecked CH4 H2).bind fun r_ch4_h2 =>
    (divChecked C2H2 C2H4).bind fun r_c2h2_c2h4 =>
    (divChecked C2H2 CH4).bind fun r_c2h2_ch4 =>
    (divChecked C2H2 H2).bind fun _r_c2h2_h2 =>
    some ((if r_c2h2_c2h4 > 0.3 ∧ r_c2h2_ch4 < 0.7 then
             "D1 (Discharge/Arcing)"
           else if r_c2h2_c2h4 < 0.3 ∧ r_ch4_h2 > 1.0 then
             "T2 (Thermal fault 300°C–700°C)"
           else "Mixed/Other fault") ++ " (Check thresholds in plot tab)")

/-- The `diagnosis` label chosen by the ordered if/elif chain of
`diagnose_duval_t5`. -/
def duval_t5_label (P_CH4 P_C2H4 P_C2H2 : ℚ) : String :=
  if P_C2H4 > 50 ∧ P_CH4 > 40 then "HC (Hot cellulosic materials)"
  else if P_CH4 > 70 ∧ P_C2H4 < 10 then "T1 (Thermal T < 300°C - Cellulose/Paper)"
  else if P_C2H4 > 30 ∧ P_C2H2 < 1 then "T2 (Thermal T 300°C–770°C)"
  else "Mixed Oil Fault"

/-- Embeds `diagnose_duval_t5(H2, CH4, C2H4, C2H2, CO)`: Duval Triangle 5
on CH4, C2H4, C2H2. -/
def diagnose_duval_t5 (H2 CH4 C2H4 C2H2 CO : ℚ) : String :=
  let P := get_duval_percentages CH4 C2H4 C2H2
  if P.2.2.2 = 0 then "Not Applicable (Total gas is zero)"
  else
    duval_t5_label P.1 P.2.1 P.2.2.1 ++
      " (CH4: " ++ formatFixed 1 P.1 ++ "%, C2H4: " ++ formatFixed 1 P.2.1 ++
      "%, C2H2: " ++ formatFixed 1 P.2.2.1 ++ "%)"

/-- Embeds `diagnose_duval_pentagon(H2, CH4, C2H4, C2H2, CO)`: ordered
absolute-ppm threshold checks over all five gases. -/
def diagnose_duval_pentagon (H2 CH4 C2H4 C2H2 CO : ℚ) : String :=
  if C2H2 > 10 ∧ C2H4 > 50 then "D2 / T3 (High Energy Arcing + Hotspot)"
  else if H2 > 500 ∧ C2H4 < 50 then "PD / D1 (Partial Discharge / Low Energy Discharge)"
  else if CO > 1000 ∧ C2H4 < 10 then "C (Cellulose/Paper degradation - thermal)"
  else if C2H4 > 200 ∧ H2 < 50 then "T2 (Thermal Fault 300°C-700°C)"
  else "Mixed/Unclassified Fault Zone"

/-- The fixed label vocabulary of Duval Triangle 1 (zero-total label plus the
five branch labels). -/
def duvalT1Labels : List String :=
  ["Not Applicable (Total gas is zero)", "T1 (Thermal fault T < 300°C)",
   "T2 (Thermal fault 300°C–700°C)", "D2 (Arcing in oil)",
   "T3 (Thermal fault T > 700°C)", "Undefined/Mixed Fault"]

/-- The fixed label vocabulary of Duval Triangle 4. -/
def duvalT4Labels : List String :=
  ["Not Applicable (Total gas is zero)", "S (Stray Gassing / Hot metal contacts)",
   "T3 (Severe Thermal Fault T > 700°C)", "D2 (High Energy Arcing)",
   "Mixed or Undefined Region"]

/-- The fixed label vocabulary of Duval Triangle 5. -/
def duvalT5Labels : List String :=
  ["Not Applicable (Total gas is zero)", "HC (Hot cellulosic materials)",
   "T1 (Thermal T < 300°C - Cellulose/Paper)", "T2 (Thermal T 300°C–770°C)",
   "Mixed Oil Fault"]

/-- The fixed diagnosis vocabulary of the Rogers lookup (fallback plus the
table values). -/
def rogersDiagLabels : List String :=
  "Undefined/Developing Fault" :: rogers_diagnoses.map Prod.snd

/-- The fixed output vocabulary of `diagnose_doernenburg` (the gate label and
the three branch labels with their common suffix). -/
def doernenburgLabels : List String :=
  ["Inconclusive (Gas limits below Doernenburg thresholds)",
   "D1 (Discharge/Arcing) (Check thresholds in plot tab)",
   "T2 (Thermal fault 300°C–700°C) (Check thresholds in plot tab)",
   "Mixed/Other fault (Check thresholds in plot tab)"]

/-- The fixed output vocabulary of `diagnose_duval_pentagon`. -/
def pentagonLabels : List String :=
  ["D2 / T3 (High Energy Arcing + Hotspot)",
   "PD / D1 (Partial Discharge / Low Energy Discharge)",
   "C (Cellulose/Paper degradation - thermal)",
   "T2 (Thermal Fault 300°C-700°C)", "Mixed/Unclassified Fault Zone"]

-- Helper lemmas shared by the claim theorems.

theorem duval_t1_label_mem (p1 p2 p3 : ℚ) :
    duval_t1_label p1 p2 p3 ∈ duvalT1Labels := by
  unfold duval_t1_label duvalT1Labels
  split_ifs <;> simp

theorem duval_t4_label_mem (p1 p2 p3 : ℚ) :
    duval_t4_label p1 p2 p3 ∈ duvalT4Labels := by
  unfold duval_t4_label duvalT4Labels
  split_ifs <;> simp

theorem duval_t5_label_mem (p1 p2 p3 : ℚ) :
    duval_t5_label p1 p2 p3 ∈ duvalT5Labels := by
  unfold duval_t5_label duvalT5Labels
  split_ifs <;> simp

theorem lookup_getD_mem (l : List (String × String)) (a d : String) :
    (List.lookup a l).getD d ∈ d :: l.map Prod.snd := by
  induction l with
  | nil => simp [List.lookup]
  | cons hd tl ih =>
      rw [List.lookup]
      cases h : a == hd.1 with
      | true => simp
      | false =>
          rcases List.mem_cons.1 ih with h' | h'
          · simp [h']
          · simp only [List.map_cons, List.mem_cons]
            exact Or.inr (Or.inr (by simpa using h'))

theorem rogers_lookup_mem (code : String) :
    rogers_lookup code ∈ rogersDiagLabels :=
  lookup_getD_mem rogers_diagnoses code "Undefined/Developing Fault"

theorem roundHalfEven_down (q : ℚ) (n : ℤ) (h1 : (n : ℚ) ≤ q)
    (h2 : q < (n : ℚ) + 1 / 2) : roundHalfEven q = n := by
  have hfl : ⌊q⌋ = n := by
    rw [Int.floor_eq_iff]
    exact ⟨h1, by linarith⟩
  simp only [roundHalfEven, hfl]
  rw [if_pos (by linarith)]

theorem roundHalfEven_up (q : ℚ) (n : ℤ) (h1 : (n : ℚ) - 1 / 2 < q)
    (h2 : q < (n : ℚ)) : roundHalfEven q = n := by
  have hfl : ⌊q⌋ = n - 1 := by
    rw [Int.floor_eq_iff]
    push_cast
    constructor <;> linarith
  simp only [roundHalfEven, hfl]
  rw [if_neg (by push_cast; linarith), if_pos (by push_cast; linarith)]
  ring

theorem formatFixed_eq (prec : ℕ) (q : ℚ) (n : ℤ)
    (h : roundHalfEven (q * (10 : ℚ) ^ prec) = n) :
    formatFixed prec q = renderFixed prec n := by
  rw [formatFixed, h]

theorem append8_split (a b c d e f g h : String) :
    ∃ r, a ++ b ++ c ++ d ++ e ++ f ++ g ++ h = a ++ r :=
  ⟨b ++ c ++ d ++ e ++ f ++ g ++ h, by simp [String.append_assoc]⟩

theorem append11_mid (a b c d e f g h i j k : String) :
    ∃ s t, a ++ b ++ c ++ d ++ e ++ f ++ g ++ h ++ i ++ j ++ k = s ++ d ++ t :=
  ⟨a ++ b ++ c, e ++ f ++ g ++ h ++ i ++ j ++ k, by simp [String.append_assoc]⟩

-- Claim theorems.

/-- C1: for every triple of non-negative gas concentrations with a positive
sum, `get_duval_percentages` returns three percentages each in `[0, 100]`
whose sum is exactly 100 (hence within any floating-point tolerance). -/
theorem get_duval_percentages_normalizes (g1 g2 g3 : ℚ)
    (h1 : 0 ≤ g1) (h2 : 0 ≤ g2) (h3 : 0 ≤ g3) (hs : 0 < g1 + g2 + g3) :
    (0 ≤ (get_duval_percentages g1 g2 g3).1 ∧
        (get_duval_percentages g1 g2 g3).1 ≤ 100) ∧
      (0 ≤ (get_duval_percentages g1 g2 g3).2.1 ∧
        (get_duval_percentages g1 g2 g3).2.1 ≤ 100) ∧
      (0 ≤ (get_duval_percentages g1 g2 g3).2.2.1 ∧
        (get_duval_percentages g1 g2 g3).2.2.1 ≤ 100) ∧
      (get_duval_percentages g1 g2 g3).1 + (get_duval_percentages g1 g2 g3).2.1 +
        (get_duval_percentages g1 g2 g3).2.2.1 = 100 := by
  have ht : g1 + g2 + g3 ≠ 0 := ne_of_gt hs
  simp only [get_duval_percentages, if_neg ht]
  have bound : ∀ g : ℚ, 0 ≤ g → g ≤ g1 + g2 + g3 →
      0 ≤ g / (g1 + g2 + g3) * 100 ∧ g / (g1 + g2 + g3) * 100 ≤ 100 := by
    intro g hg hgs
    constructor
    · exact mul_nonneg (div_nonneg hg hs.le) (by norm_num)
    · have hle : g / (g1 + g2 + g3) ≤ 1 := (div_le_one hs).2 hgs
      calc g / (g1 + g2 + g3) * 100 ≤ 1 * 100 :=
            mul_le_mul_of_nonneg_right hle (by norm_num)
        _ = 100 := one_mul 100
  refine ⟨bound g1 h1 (by linarith), bound g2 h2 (by linarith),
    bound g3 h3 (by linarith), ?_⟩
  field_simp
  ring

/-- Witness for C1 at the input `(1, 1, 2)`. -/
theorem get_duval_percentages_normalizes_witness :
    (0 ≤ (1 : ℚ) ∧ 0 ≤ (1 : ℚ) ∧ 0 ≤ (2 : ℚ) ∧ 0 < (1 : ℚ) + 1 + 2) ∧
      ((0 ≤ (get_duval_percentages 1 1 2).1 ∧
          (get_duval_percentages 1 1 2).1 ≤ 100) ∧
        (0 ≤ (get_duval_percentages 1 1 2).2.1 ∧
          (get_duval_percentages 1 1 2).2.1 ≤ 100) ∧
        (0 ≤ (get_duval_percentages 1 1 2).2.2.1 ∧
          (get_duval_percentages 1 1 2).2.2.1 ≤ 100) ∧
        (get_duval_percentages 1 1 2).1 + (get_duval_percentages 1 1 2).2.1 +
          (get_duval_percentages 1 1 2).2.2.1 = 100) :=
  ⟨by norm_num,
    get_duval_percentages_normalizes 1 1 2 (by norm_num) (by norm_num)
      (by norm_num) (by norm_num)⟩

theorem duval_t1_eval_150 : diagnose_duval_t1 150 25 10 0.5 800 =
    "Undefined/Mixed Fault (CH4: 70.4%, C2H4: 28.2%, C2H2: 1.4%)" := by
  have hP : get_duval_percentages 25 10 0.5 = (5000/71, 2000/71, 100/71, 71/2) := by
    norm_num [get_duval_percentages]
  simp only [diagnose_duval_t1, hP]
  rw [if_neg (by norm_num : ¬((71 : ℚ)/2 = 0))]
  rw [show duval_t1_label (5000/71) (2000/71) (100/71) = "Undefined/Mixed Fault" by
        norm_num [duval_t1_label]]
  rw [formatFixed_eq 1 (5000/71) 704 (roundHalfEven_down _ _ (by norm_num) (by norm_num)),
      formatFixed_eq 1 (2000/71) 282 (roundHalfEven_up _ _ (by norm_num) (by norm_num)),
      formatFixed_eq 1 (100/71) 14 (roundHalfEven_down _ _ (by norm_num) (by norm_num))]
  decide

theorem rogers_eval_150 (CO : ℚ) : diagnose_rogers_ratio 150 25 10 0.5 CO =
    "Code: 100XX, Diagnosis: T1 (Thermal Fault T < 300°C) (R1:0.17, R2:0.40, R5:0.05)" := by
  have hr : rogers_ratios 150 25 10 0.5 = (1/6, 2/5, 1/20) := by norm_num [rogers_ratios]
  simp only [diagnose_rogers_ratio, hr]
  rw [show rogers_code (1/6) (2/5) (1/20) = "100" by
        rw [rogers_code, show rogers_bucket1 ((1 : ℚ)/6) = "1" by norm_num [rogers_bucket1],
          show rogers_bucket2 ((2 : ℚ)/5) = "0" by norm_num [rogers_bucket2],
          show rogers_bucket5 ((1 : ℚ)/20) = "0" by norm_num [rogers_bucket5]]
        decide]
  rw [formatFixed_eq 2 (1/6) 17 (roundHalfEven_up _ _ (by norm_num) (by norm_num)),
      formatFixed_eq 2 (2/5) 40 (roundHalfEven_down _ _ (by norm_num) (by norm_num)),
      formatFixed_eq 2 (1/20) 5 (roundHalfEven_down _ _ (by norm_num) (by norm_num))]
  decide

theorem rogers_eval_149 (CO : ℚ) : diagnose_rogers_ratio 149 25 10 0.5 CO =
    "Code: 100XX, Diagnosis: T1 (Thermal Fault T < 300°C) (R1:0.17, R2:0.40, R5:0.05)" := by
  have hr : rogers_ratios 149 25 10 0.5 = (25/149, 2/5, 1/20) := by norm_num [rogers_ratios]
  simp only [diagnose_rogers_ratio, hr]
  rw [show rogers_code (25/149) (2/5) (1/20) = "100" by
        rw [rogers_code, show rogers_bucket1 ((25 : ℚ)/149) = "1" by norm_num [rogers_bucket1],
          show rogers_bucket2 ((2 : ℚ)/5) = "0" by norm_num [rogers_bucket2],
          show rogers_bucket5 ((1 : ℚ)/20) = "0" by norm_num [rogers_bucket5]]
        decide]
  rw [formatFixed_eq 2 (25/149) 17 (roundHalfEven_up _ _ (by norm_num) (by norm_num)),
      formatFixed_eq 2 (2/5) 40 (roundHalfEven_down _ _ (by norm_num) (by norm_num)),
      formatFixed_eq 2 (1/20) 5 (roundHalfEven_down _ _ (by norm_num) (by norm_num))]
  decide

/-- C2 counterexample: for the reading `CH4 = 25, C2H4 = 10, C2H2 = 0.5` the
normalized CH4 and C2H4 percentages are not approximately 71.4 and 28.6:
they are off by more than 0.9 and 0.4 respectively (the actual values are
5000/71 ≈ 70.4 and 2000/71 ≈ 28.2). -/
theorem duval_t1_example_percentages_refuted :
    |(get_duval_percentages 25 10 0.5).1 - 71.4| > 9/10 ∧
      |(get_duval_percentages 25 10 0.5).2.1 - 28.6| > 2/5 := by
  norm_num [get_duval_percentages, abs]

/-- C2 (amended): for `H2=150, CH4=25, C2H4=10, C2H2=0.5, CO=800` the Duval
T1 percentages of CH4/C2H4/C2H2 are `(5000/71, 2000/71, 100/71)`, i.e.
approximately `(70.4, 28.2, 1.4)`; none of the four ordered threshold checks
match, so the rule returns the "Undefined/Mixed Fault" fallback. -/
theorem duval_t1_example_fallback :
    get_duval_percentages 25 10 0.5 = (5000/71, 2000/71, 100/71, 71/2) ∧
      |(5000 : ℚ)/71 - 70.4| < 1/20 ∧ |(2000 : ℚ)/71 - 28.2| < 1/20 ∧
      |(100 : ℚ)/71 - 1.4| < 1/20 ∧
      ¬((100 : ℚ)/71 < 0.5 ∧ (5000 : ℚ)/71 > 80) ∧
      ¬((2000 : ℚ)/71 > 25 ∧ (100 : ℚ)/71 < 1) ∧
      ¬((100 : ℚ)/71 > 5 ∧ (2000 : ℚ)/71 > 15) ∧
      ¬((2000 : ℚ)/71 > 50 ∧ (100 : ℚ)/71 < 2) ∧
      duval_t1_label (5000/71) (2000/71) (100/71) = "Undefined/Mixed Fault" ∧
      diagnose_duval_t1 150 25 10 0.5 800 =
        "Undefined/Mixed Fault (CH4: 70.4%, C2H4: 28.2%, C2H2: 1.4%)" :=
  ⟨by norm_num [get_duval_percentages], by norm_num [abs], by norm_num [abs],
    by norm_num [abs], by norm_num, by norm_num, by norm_num, by norm_num,
    by norm_num [duval_t1_label], duval_t1_eval_150⟩

/-- C3: for `H2=150, CH4=25, C2H4=10, C2H2=0.5` the Rogers ratios are
`R1 = 25/150 = 1/6 ≈ 0.167` (bucket "1"), `R2 = 10/25 = 2/5` (bucket "0"),
`R5 = 0.5/10 = 1/20` (bucket "0"); the code, concatenated in the order
R1, R2, R5, is `"100"`, which maps to "T1 (Thermal Fault T < 300°C)",
whatever CO is. -/
theorem rogers_example_code_100 : ∀ CO : ℚ,
    rogers_ratios 150 25 10 0.5 = (1/6, 2/5, 1/20) ∧
      |(1 : ℚ)/6 - 0.167| < 1/1000 ∧
      rogers_bucket1 (1/6) = "1" ∧ rogers_bucket2 (2/5) = "0" ∧
      rogers_bucket5 (1/20) = "0" ∧ rogers_code (1/6) (2/5) (1/20) = "100" ∧
      rogers_lookup "100" = "T1 (Thermal Fault T < 300°C)" ∧
      diagnose_rogers_ratio 150 25 10 0.5 CO =
        "Code: 100XX, Diagnosis: T1 (Thermal Fault T < 300°C) (R1:0.17, R2:0.40, R5:0.05)" :=
  fun CO =>
  ⟨by norm_num [rogers_ratios], by norm_num [abs],
    by norm_num [rogers_bucket1], by norm_num [rogers_bucket2],
    by norm_num [rogers_bucket5],
    by rw [rogers_code, show rogers_bucket1 ((1 : ℚ)/6) = "1" by norm_num [rogers_bucket1],
         show rogers_bucket2 ((2 : ℚ)/5) = "0" by norm_num [rogers_bucket2],
         show rogers_bucket5 ((1 : ℚ)/20) = "0" by norm_num [rogers_bucket5]]
       decide,
    by decide, rogers_eval_150 CO⟩

/-- C4: when any of the four Doernenburg applicability minimums fails
(`H2 < 100`, `CH4 < 10`, `C2H2 < 0.5`, or `C2H4 < 50`), the rule returns the
inconclusive label before any ratio is computed. -/
theorem doernenburg_gate_inconclusive (H2 CH4 C2H4 C2H2 CO : ℚ)
    (h : H2 < 100 ∨ CH4 < 10 ∨ C2H2 < 0.5 ∨ C2H4 < 50) :
    diagnose_doernenburg H2 CH4 C2H4 C2H2 CO =
      some "Inconclusive (Gas limits below Doernenburg thresholds)" := by
  unfold diagnose_doernenburg
  rw [if_pos h]

/-- Witness for C4 at `H2 = 50` with large values of every other gas. -/
theorem doernenburg_gate_inconclusive_witness :
    ((50 : ℚ) < 100 ∨ (1000 : ℚ) < 10 ∨ (1000 : ℚ) < 0.5 ∨ (1000 : ℚ) < 50) ∧
      diagnose_doernenburg 50 1000 1000 1000 0 =
        some "Inconclusive (Gas limits below Doernenburg thresholds)" :=
  ⟨Or.inl (by norm_num),
    doernenburg_gate_inconclusive 50 1000 1000 1000 0 (Or.inl (by norm_num))⟩

/-- C5: in the Rogers Ratio rule a zero denominator makes the corresponding
ratio the sentinel 99 (`H2 = 0` for R1, `CH4 = 0` for R2, `C2H4 = 0` for R5),
and 99 is bucketed to the high code `"2"` by all three bucketings. -/
theorem rogers_zero_denominator_sentinel (H2 CH4 C2H4 C2H2 : ℚ) :
    (H2 = 0 → (rogers_ratios H2 CH4 C2H4 C2H2).1 = 99) ∧
      (CH4 = 0 → (rogers_ratios H2 CH4 C2H4 C2H2).2.1 = 99) ∧
      (C2H4 = 0 → (rogers_ratios H2 CH4 C2H4 C2H2).2.2 = 99) ∧
      rogers_bucket1 99 = "2" ∧ rogers_bucket2 99 = "2" ∧
      rogers_bucket5 99 = "2" := by
  refine ⟨?_, ?_, ?_, by norm_num [rogers_bucket1], by norm_num [rogers_bucket2],
      by norm_num [rogers_bucket5]⟩ <;>
    (intro h; subst h; simp [rogers_ratios])

/-- Witness for C5 at the all-zero reading. -/
theorem rogers_zero_denominator_sentinel_witness :
    (rogers_ratios 0 0 0 0).1 = 99 ∧ (rogers_ratios 0 0 0 0).2.1 = 99 ∧
      (rogers_ratios 0 0 0 0).2.2 = 99 :=
  ⟨(rogers_zero_denominator_sentinel 0 0 0 0).1 rfl,
    (rogers_zero_denominator_sentinel 0 0 0 0).2.1 rfl,
    (rogers_zero_denominator_sentinel 0 0 0 0).2.2.1 rfl⟩

/-- C6: when the three gases feeding a Duval triangle are all zero,
normalization returns the all-zero 4-tuple (the zero total being the flag),
and Duval T1, T4 and T5 return the zero-total "Not Applicable" label,
whatever the unused gases are. -/
theorem duval_zero_total_not_applicable :
    get_duval_percentages 0 0 0 = (0, 0, 0, 0) ∧
      (∀ H2 CO : ℚ,
        diagnose_duval_t1 H2 0 0 0 CO = "Not Applicable (Total gas is zero)") ∧
      (∀ CH4 CO : ℚ,
        diagnose_duval_t4 0 CH4 0 0 CO = "Not Applicable (Total gas is zero)") ∧
      (∀ H2 CO : ℚ,
        diagnose_duval_t5 H2 0 0 0 CO = "Not Applicable (Total gas is zero)") := by
  refine ⟨by norm_num [get_duval_percentages], fun H2 CO => ?_, fun CH4 CO => ?_,
    fun H2 CO => ?_⟩
  · norm_num [diagnose_duval_t1, get_duval_percentages]
  · norm_num [diagnose_duval_t4, get_duval_percentages]
  · norm_num [diagnose_duval_t5, get_duval_percentages]

/-- C7: `to_cartesian` is the deterministic map `x = p2 + p3/2`,
`y = p3*sqrt(3)/2`; it sends the three corner triples to the triangle
corners and its value does not depend on `p1`. -/
theorem to_cartesian_corners :
    to_cartesian 0 0 100 = (50, 50 * Real.sqrt 3) ∧
      to_cartesian 100 0 0 = (0, 0) ∧ to_cartesian 0 100 0 = (100, 0) ∧
      ∀ p1 p1' p2 p3 : ℝ, to_cartesian p1 p2 p3 = to_cartesian p1' p2 p3 := by
  refine ⟨?_, ?_, ?_, fun p1 p1' p2 p3 => rfl⟩ <;>
    (unfold to_cartesian; rw [Prod.mk.injEq])
  · exact ⟨by norm_num, by ring⟩
  · exact ⟨by norm_num, by simp⟩
  · exact ⟨by norm_num, by simp⟩

/-- C8: on every reading of non-negative gas values, each of the six
diagnostic rules returns a string carrying a label from its fixed
vocabulary: the three Duval triangle outputs start with such a label, the
Rogers output embeds one, the Doernenburg rule returns (it never hits a
division failure) one of its four outputs, and the pentagon rule returns one
of its five outputs. -/
theorem diagnostic_rules_return_defined_labels (H2 CH4 C2H4 C2H2 CO : ℚ)
    (h1 : 0 ≤ H2) (h2 : 0 ≤ CH4) (h3 : 0 ≤ C2H4) (h4 : 0 ≤ C2H2)
    (h5 : 0 ≤ CO) :
    (∃ l ∈ duvalT1Labels, ∃ r, diagnose_duval_t1 H2 CH4 C2H4 C2H2 CO = l ++ r) ∧
      (∃ l ∈ duvalT4Labels, ∃ r, diagnose_duval_t4 H2 CH4 C2H4 C2H2 CO = l ++ r) ∧
      (∃ l ∈ duvalT5Labels, ∃ r, diagnose_duval_t5 H2 CH4 C2H4 C2H2 CO = l ++ r) ∧
      (∃ d ∈ rogersDiagLabels, ∃ s t,
        diagnose_rogers_ratio H2 CH4 C2H4 C2H2 CO = s ++ d ++ t) ∧
      (∃ l ∈ doernenburgLabels, diagnose_doernenburg H2 CH4 C2H4 C2H2 CO = some l) ∧
      diagnose_duval_pentagon H2 CH4 C2H4 C2H2 CO ∈ pentagonLabels := by
  refine ⟨?_, ?_, ?_, ?_, ?_, ?_⟩
  · simp only [diagnose_duval_t1]
    split_ifs with h
    · exact ⟨"Not Applicable (Total gas is zero)", by decide, "", by decide⟩
    · exact ⟨duval_t1_label _ _ _, duval_t1_label_mem _ _ _,
        append8_split _ _ _ _ _ _ _ _⟩
  · simp only [diagnose_duval_t4]
    split_ifs with h
    · exact ⟨"Not Applicable (Total gas is zero)", by decide, "", by decide⟩
    · exact ⟨duval_t4_label _ _ _, duval_t4_label_mem _ _ _,
        append8_split _ _ _ _ _ _ _ _⟩
  · simp only [diagnose_duval_t5]
    split_ifs with h
    · exact ⟨"Not Applicable (Total gas is zero)", by decide, "", by decide⟩
    · exact ⟨duval_t5_label _ _ _, duval_t5_label_mem _ _ _,
        append8_split _ _ _ _ _ _ _ _⟩
  · simp only [diagnose_rogers_ratio]
    exact ⟨rogers_lookup _, rogers_lookup_mem _, append11_mid _ _ _ _ _ _ _ _ _ _ _⟩
  · by_cases hg : H2 < 100 ∨ CH4 < 10 ∨ C2H2 < 0.5 ∨ C2H4 < 50
    · refine ⟨"Inconclusive (Gas limits below Doernenburg thresholds)", by decide, ?_⟩
      unfold diagnose_doernenburg
      rw [if_pos hg]
    · push_neg at hg
      obtain ⟨e1, e2, e3, e4⟩ := hg
      have k1 : H2 ≠ 0 := by intro h; rw [h] at e1; norm_num at e1
      have k2 : CH4 ≠ 0 := by intro h; rw [h] at e2; norm_num at e2
      have k3 : C2H4 ≠ 0 := by intro h; rw [h] at e4; norm_num at e4
      unfold diagnose_doernenburg
      rw [if_neg (by push_neg; exact ⟨e1, e2, e3, e4⟩)]
      simp only [divChecked, if_neg k1, if_neg k2, if_neg k3, Option.bind]
      split_ifs with b1 b2
      · exact ⟨"D1 (Discharge/Arcing) (Check thresholds in plot tab)",
          by decide, by decide⟩
      · exact ⟨"T2 (Thermal fault 300°C–700°C) (Check thresholds in plot tab)",
          by decide, by decide⟩
      · exact ⟨"Mixed/Other fault (Check thresholds in plot tab)",
          by decide, by decide⟩
  · unfold diagnose_duval_pentagon pentagonLabels
    split_ifs <;> simp

/-- Witness for C8 at the reading `(150, 25, 10, 0.5, 800)`. -/
theorem diagnostic_rules_return_defined_labels_witness :
    (0 ≤ (150 : ℚ) ∧ 0 ≤ (25 : ℚ) ∧ 0 ≤ (10 : ℚ) ∧ 0 ≤ (0.5 : ℚ) ∧
        0 ≤ (800 : ℚ)) ∧
      ((∃ l ∈ duvalT1Labels, ∃ r, diagnose_duval_t1 150 25 10 0.5 800 = l ++ r) ∧
        (∃ l ∈ duvalT4Labels, ∃ r, diagnose_duval_t4 150 25 10 0.5 800 = l ++ r) ∧
        (∃ l ∈ duvalT5Labels, ∃ r, diagnose_duval_t5 150 25 10 0.5 800 = l ++ r) ∧
        (∃ d ∈ rogersDiagLabels, ∃ s t,
          diagnose_rogers_ratio 150 25 10 0.5 800 = s ++ d ++ t) ∧
        (∃ l ∈ doernenburgLabels,
          diagnose_doernenburg 150 25 10 0.5 800 = some l) ∧
        diagnose_duval_pentagon 150 25 10 0.5 800 ∈ pentagonLabels) :=
  ⟨by norm_num,
    diagnostic_rules_return_defined_labels 150 25 10 0.5 800 (by norm_num)
      (by norm_num) (by norm_num) (by norm_num) (by norm_num)⟩

/-- C9 counterexample: the readings `(150, 25, 10, 0.5, 800)` and
`(149, 25, 10, 0.5, 800)` have different Rogers R1 ratios but byte-identical
`diagnose_rogers_ratio` outputs, so the computed ratio values are not
recoverable from the rule's output: the output carries them only as a
2-decimal formatted string. -/
theorem rogers_output_collision :
    diagnose_rogers_ratio 150 25 10 0.5 800 = diagnose_rogers_ratio 149 25 10 0.5 800 ∧
      (rogers_ratios 150 25 10 0.5).1 ≠ (rogers_ratios 149 25 10 0.5).1 :=
  ⟨by rw [rogers_eval_150, rogers_eval_149], by norm_num [rogers_ratios]⟩

/-- C9 (amended): each diagnostic rule returns a single human-readable
string in which the computed numeric values appear only at fixed 1-2 decimal
formatting; they are not exposed as separate structured data (readings with
distinct ratio values can produce identical outputs), and are recovered by
recomputation through `get_duval_percentages` / `rogers_ratios` instead. -/
theorem rogers_values_only_in_formatted_string :
    diagnose_rogers_ratio 150 25 10 0.5 800 =
      "Code: 100XX, Diagnosis: T1 (Thermal Fault T < 300°C) (R1:0.17, R2:0.40, R5:0.05)" ∧
      diagnose_rogers_ratio 149 25 10 0.5 800 =
        "Code: 100XX, Diagnosis: T1 (Thermal Fault T < 300°C) (R1:0.17, R2:0.40, R5:0.05)" ∧
      rogers_ratios 150 25 10 0.5 = (1/6, 2/5, 1/20) ∧
      rogers_ratios 149 25 10 0.5 = (25/149, 2/5, 1/20) ∧
      (1 : ℚ)/6 ≠ 25/149 :=
  ⟨rogers_eval_150 800, rogers_eval_149 800, by norm_num [rogers_ratios],
    by norm_num [rogers_ratios], by norm_num⟩

/-- C10: whenever the Doernenburg applicability gate passes, the denominators
H2, CH4 and C2H4 of the four ratios are strictly positive, every checked
division succeeds, and the rule produces a diagnosis: the unguarded divisions
can never divide by zero, so no sentinel substitution is needed. -/
theorem doernenburg_gate_ensures_positive_denominators (H2 CH4 C2H4 C2H2 CO : ℚ)
    (hg : ¬(H2 < 100 ∨ CH4 < 10 ∨ C2H2 < 0.5 ∨ C2H4 < 50)) :
    (0 < H2 ∧ 0 < CH4 ∧ 0 < C2H4) ∧
      divChecked CH4 H2 ≠ none ∧ divChecked C2H2 C2H4 ≠ none ∧
      divChecked C2H2 CH4 ≠ none ∧ divChecked C2H2 H2 ≠ none ∧
      (diagnose_doernenburg H2 CH4 C2H4 C2H2 CO).isSome = true := by
  have hg' := hg
  push_neg at hg'
  obtain ⟨e1, e2, e3, e4⟩ := hg'
  have p1 : (0 : ℚ) < H2 := lt_of_lt_of_le (by norm_num) e1
  have p2 : (0 : ℚ) < CH4 := lt_of_lt_of_le (by norm_num) e2
  have p3 : (0 : ℚ) < C2H4 := lt_of_lt_of_le (by norm_num) e4
  refine ⟨⟨p1, p2, p3⟩, by simp [divChecked, p1.ne'], by simp [divChecked, p3.ne'],
    by simp [divChecked, p2.ne'], by simp [divChecked, p1.ne'], ?_⟩
  unfold diagnose_doernenburg
  rw [if_neg hg]
  simp only [divChecked, if_neg p1.ne', if_neg p2.ne', if_neg p3.ne', Option.bind]
  simp

/-- Witness for C10 at the boundary reading `(100, 10, 50, 0.5, 0)`. -/
theorem doernenburg_gate_ensures_positive_denominators_witness :
    ¬((100 : ℚ) < 100 ∨ (10 : ℚ) < 10 ∨ (0.5 : ℚ) < 0.5 ∨ (50 : ℚ) < 50) ∧
      ((0 < (100 : ℚ) ∧ 0 < (10 : ℚ) ∧ 0 < (50 : ℚ)) ∧
        divChecked 10 100 ≠ none ∧ divChecked 0.5 50 ≠ none ∧
        divChecked 0.5 10 ≠ none ∧ divChecked 0.5 100 ≠ none ∧
        (diagnose_doernenburg 100 10 50 0.5 0).isSome = true) :=
  ⟨by norm_num,
    doernenburg_gate_ensures_positive_denominators 100 10 50 0.5 0 (by norm_num)⟩
